import Mathlib

/-!
Verification of the session-refresh scheduling, Supabase token refresh,
Facebook OAuth hand-off and OAuth-callback logic of the CRT client
application, via a shallow embedding of the relevant source functions.

Times that the source handles as JavaScript numbers (seconds or
milliseconds since epoch, including the fractional seconds produced by
dividing `Date.now()` by 1000) are modelled as rationals; integer-valued
millisecond timestamps are modelled as `Int`.  Calls into the backend SDK
or the Facebook SDK that can either return a value, return an error field,
or throw, are modelled as `Except`-valued inputs supplied by an
environment record, so every run of the embedded code corresponds to one
choice of environment.
-/

/-- Fields of a Supabase session object that the embedded code reads:
`session.user.id` and `session.expires_at` (seconds since epoch). -/
structure SessionT where
  userId : String
  expiresAt : Int
deriving DecidableEq

/- ----------------------------------------------------------------
Session refresh scheduling (App component, `setupSessionRefresh`).
---------------------------------------------------------------- -/

/-- Embeds `refreshDelay = timeUntilExpiry * 0.8 * 1000` from
`setupSessionRefresh`, with `timeUntilExpiry = expiresAt - now` in seconds
and the result in milliseconds. -/
def refreshDelayMs (expiresAt now : ℚ) : ℚ :=
  (expiresAt - now) * 0.8 * 1000

/-- Embeds `finalDelay = Math.max(refreshDelay, 5000)` from
`setupSessionRefresh`. -/
def finalDelayMs (expiresAt now : ℚ) : ℚ :=
  max (refreshDelayMs expiresAt now) 5000

/-- An armed browser timer: its numeric handle and its delay in
milliseconds. -/
structure TimerT where
  handle : Nat
  delay : ℚ
deriving DecidableEq

/-- State of the browser timer table together with the component ref
`refreshTimerRef`: `current` is `refreshTimerRef.current`, `armed` is the
list of currently armed (not yet fired, not cleared) timers, and `next` is
the next fresh timer handle. -/
structure TimerSys where
  current : Option Nat
  armed : List TimerT
  next : Nat
deriving DecidableEq

/-- Embeds `clearTimeout(h)`: the timer with handle `h`, if armed, is
disarmed; clearing a dead handle is a no-op. -/
def clearTimeout (s : TimerSys) (h : Nat) : TimerSys :=
  { s with armed := s.armed.filter (fun t => t.handle != h) }

/-- Embeds `window.setTimeout(cb, delay)`: arms a fresh one-shot timer and
returns its handle. -/
def setTimeout (s : TimerSys) (delay : ℚ) : TimerSys × Nat :=
  ({ s with armed := s.armed ++ [⟨s.next, delay⟩], next := s.next + 1 }, s.next)

/-- Embeds `setupSessionRefresh(expiresAt)`: if `refreshTimerRef.current`
is non-null it is cleared and nulled, then a one-shot timer with delay
`finalDelayMs expiresAt now` is armed and its handle stored in the ref. -/
def setupSessionRefresh (s : TimerSys) (expiresAt now : ℚ) : TimerSys :=
  let s1 :=
    match s.current with
    | some h => { clearTimeout s h with current := none }
    | none => s
  let p := setTimeout s1 (finalDelayMs expiresAt now)
  { p.1 with current := some p.2 }

/-- Environment seen by the scheduled-refresh timer callback: the result
of `refreshSupabaseToken()` and the `expires_at` of the session returned
by the subsequent `supabase.auth.getSession()` (or `none` when no session
is returned). -/
structure RefreshFireEnv where
  refreshSuccess : Bool
  sessionAfter : Option ℚ

/-- Embeds the firing of the scheduled refresh timer with handle `h`
(the body of the `setTimeout` callback in `setupSessionRefresh`): the
fired one-shot timer is no longer armed; on refresh success with a session
present, `setupSessionRefresh(session.expires_at)` re-arms; on refresh
success with no session nothing is armed; on failure a 30000 ms retry
timer is armed and stored in the ref. -/
def fireRefreshTimer (s : TimerSys) (h : Nat) (env : RefreshFireEnv) (now : ℚ) :
    TimerSys :=
  let s0 := { s with armed := s.armed.filter (fun t => t.handle != h) }
  if env.refreshSuccess then
    match env.sessionAfter with
    | some e => setupSessionRefresh s0 e now
    | none => s0
  else
    let p := setTimeout s0 30000
    { p.1 with current := some p.2 }

/-- Reachable-state invariant of the timer system: every stored handle was
previously issued, and at most one timer is armed, namely the one the ref
points to. -/
def TimerInv (s : TimerSys) : Prop :=
  (∀ h, s.current = some h → h < s.next) ∧
  (s.armed = [] ∨ ∃ t, s.current = some t.handle ∧ s.armed = [t])

/- ----------------------------------------------------------------
Supabase token refresh (`refreshSupabaseToken` in the supabase module).
---------------------------------------------------------------- -/

/-- Environment of one call to `refreshSupabaseToken`: the outcome of
`supabase.auth.getSession()` and of `supabase.auth.refreshSession()`.
`Except.error` covers both a returned error field and a thrown exception,
`Except.ok none` a successful call yielding no session. -/
structure RefreshTokenEnv where
  getSessionResult : Except String (Option SessionT)
  refreshSessionResult : Except String (Option SessionT)

/-- Embeds `refreshSupabaseToken()`: false when getting the session errors
or yields no session, false when the refresh errors or returns no session,
true only when a refreshed session is obtained; all exception paths are
caught and produce false. -/
def refreshSupabaseToken (env : RefreshTokenEnv) : Bool :=
  match env.getSessionResult with
  | .error _ => false
  | .ok none => false
  | .ok (some _) =>
    match env.refreshSessionResult with
    | .error _ => false
    | .ok none => false
    | .ok (some _) => true

/- ----------------------------------------------------------------
Facebook auth hand-off state (`facebookAuth.ts`).
---------------------------------------------------------------- -/

/-- The `fb_auth_state` hand-off record `{ userId, expiresAt, timestamp }`
persisted to local storage before redirecting to Facebook. -/
structure FbAuthState where
  userId : String
  expiresAt : Int
  timestamp : Int
deriving DecidableEq

/-- Environment of one call to `restoreFacebookAuthState`: the current
time in milliseconds, and the outcomes of `supabase.auth.getSession()` and
`supabase.auth.refreshSession()`. -/
structure RestoreEnv where
  now : Int
  getSessionResult : Except String (Option SessionT)
  refreshSessionResult : Except String (Option SessionT)

/-- Result of `restoreFacebookAuthState`: its boolean return value, the
`fb_auth_state` slot of local storage afterwards (outer `none` means the
key is absent; `some none` models a stored string that does not parse),
and whether `refreshSession` was invoked. -/
structure RestoreResult where
  restored : Bool
  fb_auth_state : Option (Option FbAuthState)
  refreshAttempted : Bool
deriving DecidableEq

/-- Embeds `restoreFacebookAuthState()` over the parsed content of the
`fb_auth_state` local-storage key: absent key returns false; an unparsable
value throws and is caught, returning false; a record older than 15
minutes is removed and false is returned without touching the session; an
existing session returns true; otherwise one refresh is attempted, and on
a refreshed session the key is removed and true returned. -/
def restoreFacebookAuthState (env : RestoreEnv)
    (savedState : Option (Option FbAuthState)) : RestoreResult :=
  match savedState with
  | none => ⟨false, none, false⟩
  | some none => ⟨false, some none, false⟩
  | some (some st) =>
    if env.now - st.timestamp > 15 * 60 * 1000 then
      ⟨false, none, false⟩
    else
      match env.getSessionResult with
      | .error _ => ⟨false, some (some st), false⟩
      | .ok (some _) => ⟨true, some (some st), false⟩
      | .ok none =>
        match env.refreshSessionResult with
        | .error _ => ⟨false, some (some st), true⟩
        | .ok none => ⟨false, some (some st), true⟩
        | .ok (some _) => ⟨true, none, true⟩

/-- Embeds the `restoreAuth` effect of the callback page: given the
session found by its initial `getSession` call, it returns whether the
delayed redirect to the login page is scheduled (scheduled exactly when no
session exists and `restoreFacebookAuthState` fails). -/
def restoreAuth (sessionAtStart : Option SessionT) (env : RestoreEnv)
    (savedState : Option (Option FbAuthState)) : Bool :=
  match sessionAtStart with
  | some _ => false
  | none =>
    if (restoreFacebookAuthState env savedState).restored then false else true

/- ----------------------------------------------------------------
Facebook status handler (`handleFacebookStatusChange`).
---------------------------------------------------------------- -/

/-- The `status` field of a Facebook login-status response. -/
inductive FBLoginStatus
  | connected
  | not_authorized
  | unknown
  | error
deriving DecidableEq

/-- The `authResponse` object of a Facebook login-status response. -/
structure FacebookAuthResponse where
  accessToken : String
  expiresIn : Int
  signedRequest : String
  userID : String
deriving DecidableEq

/-- A Facebook login-status response. -/
structure FacebookStatusResponse where
  status : FBLoginStatus
  authResponse : Option FacebookAuthResponse
deriving DecidableEq

/-- A Facebook page as stored in the `fb_pages` cache. -/
structure FacebookPage where
  id : String
  name : String
  access_token : String
  category : String
  tasks : List String
deriving DecidableEq

/-- Environment of one call to `handleFacebookStatusChange`: the
configured app id (`VITE_META_APP_ID`), the current time in milliseconds,
and the outcomes of `supabase.auth.getSession()`,
`getFacebookUserInfo` and `getFacebookPages`. -/
structure StatusChangeEnv where
  appId : Option String
  now : Int
  getSessionResult : Except String (Option SessionT)
  userInfoResult : Except String Unit
  pagesResult : Except String (List FacebookPage)

/-- Observable outcome of `handleFacebookStatusChange`: the value written
to the `fb_auth_state` key (if any), the value written to the `fb_pages`
key (if any), the target of the `window.location.href` assignment (if
any), and the boolean the promise resolves with. -/
structure StatusChangeResult where
  fb_auth_state : Option FbAuthState
  fb_pages : Option (List FacebookPage)
  redirect : Option String
  result : Bool

/-- The hand-off record written by every branch of
`handleFacebookStatusChange` when `getSession` yields a session:
`{ userId: session.user.id, expiresAt: session.expires_at,
timestamp: Date.now() }`; errors are caught and nothing is written. -/
def savedAuthState (env : StatusChangeEnv) : Option FbAuthState :=
  match env.getSessionResult with
  | .ok (some s) => some ⟨s.userId, s.expiresAt, env.now⟩
  | _ => none

/-- The fixed OAuth redirect URI of the application. -/
def oauthRedirectUri : String := "https://crt-tech.org/oauth/facebook/callback"

/-- Constant folding of `encodeURIComponent(oauthRedirectUri)` for the
fixed redirect URI literal. -/
def encodedRedirectUri : String :=
  "https%3A%2F%2Fcrt-tech.org%2Foauth%2Ffacebook%2Fcallback"

/-- Leading part of the Facebook OAuth dialog URL, up to the app id. -/
def fbDialogUrlBase : String :=
  "https://www.facebook.com/v18.0/dialog/oauth?client_id="

/-- The scope string used by every OAuth dialog URL in the source. -/
def fbScope : String := "public_profile,email,pages_show_list,pages_messaging"

/-- The dialog URL built in the `connected` branch:
`...client_id=APPID&redirect_uri=...&response_type=code&scope=...`. -/
def fbDialogUrlConnected (appId : String) : String :=
  fbDialogUrlBase ++ appId ++ "&redirect_uri=" ++ encodedRedirectUri ++
    "&response_type=code" ++ ("&scope=" ++ fbScope)

/-- The dialog URL built in the `not_authorized` and default branches:
`...client_id=APPID&redirect_uri=...&scope=...&response_type=code`. -/
def fbDialogUrlDefault (appId : String) : String :=
  fbDialogUrlBase ++ appId ++ "&redirect_uri=" ++ encodedRedirectUri ++
    "&scope=" ++ fbScope ++ "&response_type=code"

/-- A URL contains the query parameter `response_type=code`. -/
def ContainsRespTypeCode (url : String) : Prop :=
  ∃ pre post : String, url = pre ++ "&response_type=code" ++ post

/-- Embeds `handleFacebookStatusChange(response)`.  The `connected`
branch requires a non-null `authResponse` (a `connected` status with a
null `authResponse` falls through to the default branch); it best-effort
caches pages, persists the hand-off record, and redirects resolving true;
the `not_authorized` and default branches persist the hand-off record and
redirect resolving false; a missing app id aborts before the redirect and
resolves false in every branch. -/
def handleFacebookStatusChange (resp : FacebookStatusResponse)
    (env : StatusChangeEnv) : StatusChangeResult :=
  match resp.status, resp.authResponse with
  | .connected, some _ =>
    let fbPages :=
      match env.pagesResult with
      | .ok pages => if pages.length > 0 then some pages else none
      | .error _ => none
    match env.appId with
    | none => ⟨savedAuthState env, fbPages, none, false⟩
    | some appId =>
      ⟨savedAuthState env, fbPages, some (fbDialogUrlConnected appId), true⟩
  | .not_authorized, _ =>
    match env.appId with
    | none => ⟨savedAuthState env, none, none, false⟩
    | some appId =>
      ⟨savedAuthState env, none, some (fbDialogUrlDefault appId), false⟩
  | _, _ =>
    match env.appId with
    | none => ⟨savedAuthState env, none, none, false⟩
    | some appId =>
      ⟨savedAuthState env, none, some (fbDialogUrlDefault appId), false⟩

/-- Which callback the login button invokes after
`handleFacebookStatusChange` resolves. -/
inductive LoginCallbackInvoked
  | successCb
  | failureCb
  | noneCb
deriving DecidableEq

/-- Embeds the dispatch at the end of `statusChangeCallback` in
`FacebookLoginButton`: `if (success && onLoginSuccess) onLoginSuccess();
else if (!success && onLoginFailure) onLoginFailure(...)`. -/
def buttonStatusDispatch (success hasSuccessCb hasFailureCb : Bool) :
    LoginCallbackInvoked :=
  if success && hasSuccessCb then .successCb
  else if !success && hasFailureCb then .failureCb
  else .noneCb

/- ----------------------------------------------------------------
OAuth callback page (`FacebookCallback.tsx`, the routed implementation).
---------------------------------------------------------------- -/

/-- The authenticated user as read by the callback page. -/
structure UserT where
  id : String
deriving DecidableEq

/-- The two hand-off keys of local storage as seen by the callback page:
`fb_auth_state` as the raw stored string, `fb_pages` as raw presence plus
parse outcome (`some none` models a stored string that fails to parse or
is not an array). -/
structure LocalStore where
  fb_auth_state : Option String
  fb_pages : Option (Option (List FacebookPage))
deriving DecidableEq

/-- Embeds the page-loading prologue of `handleFacebookCallback`: pages
become the stored array when it parses and is non-empty, otherwise the
empty list. -/
def loadPages : Option (Option (List FacebookPage)) → List FacebookPage
  | some (some l) => if l.length > 0 then l else []
  | _ => []

/-- One `upsert` call on the `social_connections` table: the row payload
and the `onConflict` key of the call. -/
structure UpsertRec where
  user_id : String
  fb_page_id : Option String
  access_token : String
  token_expiry : Int
  onConflict : String
deriving DecidableEq

/-- Status values of the callback page state machine. -/
inductive CallbackStatus
  | processing
  | auth_restore
  | exchanging_code
  | getting_pages
  | saving
  | success
  | error
deriving DecidableEq

/-- Environment of one run of the callback page effects: the `code` query
parameter, the outcome of `supabase.auth.getUser()`, the tokens returned
by the (mocked) exchanges, the current time in milliseconds, and the error
returned by the `social_connections` upsert (`none` on success). -/
structure CallbackEnv where
  code : Option String
  getUserResult : Except String (Option UserT)
  userToken : String
  pageToken : String
  now : Int
  upsertError : Option String

/-- Observable outcome of a callback-page effect run: the upsert calls
made, the final status, the local storage afterwards, the navigation
target (if any), and the pages offered for selection. -/
structure CallbackResult where
  upserts : List UpsertRec
  status : CallbackStatus
  store : LocalStore
  navigate : Option String
  availablePages : List FacebookPage
deriving DecidableEq

/-- Embeds `handleFacebookCallback` of the routed callback page: a missing
code or user fails to the error state; zero cached pages upserts a
user-level row (no `fb_page_id`, conflict key `user_id`), on success
removes `fb_auth_state` and navigates to settings; exactly one cached page
upserts a row carrying that `fb_page_id` (conflict key `user_id`), on
success removes `fb_pages` and navigates to settings; several cached pages
make no upsert and await a selection; a failed upsert throws to the catch,
which sets the error state and leaves local storage untouched. -/
def handleFacebookCallback (env : CallbackEnv) (store : LocalStore) :
    CallbackResult :=
  match env.code with
  | none => ⟨[], .error, store, none, []⟩
  | some _ =>
    match env.getUserResult with
    | .error _ => ⟨[], .error, store, none, []⟩
    | .ok none => ⟨[], .error, store, none, []⟩
    | .ok (some user) =>
      match loadPages store.fb_pages with
      | [] =>
        let row : UpsertRec :=
          ⟨user.id, none, env.userToken, env.now + 2 * 60 * 60 * 1000, "user_id"⟩
        match env.upsertError with
        | some _ => ⟨[row], .error, store, none, []⟩
        | none =>
          ⟨[row], .success, { store with fb_auth_state := none },
            some "/settings", []⟩
      | [selectedPage] =>
        let row : UpsertRec :=
          ⟨user.id, some selectedPage.id, env.pageToken,
            env.now + 60 * 24 * 60 * 60 * 1000, "user_id"⟩
        match env.upsertError with
        | some _ => ⟨[row], .error, store, none, []⟩
        | none =>
          ⟨[row], .success, { store with fb_pages := none },
            some "/settings", []⟩
      | pages =>
        ⟨[], .getting_pages, store, none, pages⟩

/-- Embeds the `processSelectedPage` effect of the routed callback page:
it acts only when a page id is selected, pages are available and a current
user exists; an unknown id is a logged no-op; otherwise it upserts a row
carrying the selected `fb_page_id` (conflict key `user_id`); a failed
upsert sets the error state leaving storage untouched; on success it
removes `fb_pages` and navigates to settings. -/
def processSelectedPage (selectedPageId : Option String)
    (availablePages : List FacebookPage) (currentUser : Option UserT)
    (env : CallbackEnv) (store : LocalStore) (status0 : CallbackStatus) :
    CallbackResult :=
  match selectedPageId, currentUser with
  | some pid, some user =>
    if 0 < availablePages.length then
      match availablePages.find? (fun p => p.id == pid) with
      | none => ⟨[], status0, store, none, availablePages⟩
      | some page =>
        let row : UpsertRec :=
          ⟨user.id, some page.id, env.pageToken,
            env.now + 60 * 24 * 60 * 60 * 1000, "user_id"⟩
        match env.upsertError with
        | some _ => ⟨[row], .error, store, none, availablePages⟩
        | none =>
          ⟨[row], .success, { store with fb_pages := none },
            some "/settings", availablePages⟩
    else ⟨[], status0, store, none, availablePages⟩
  | _, _ => ⟨[], status0, store, none, availablePages⟩

/- ----------------------------------------------------------------
Concrete sample data used by witnesses and counterexamples.
---------------------------------------------------------------- -/

/-- A sample Facebook page. -/
def page1 : FacebookPage := ⟨"p1", "Page One", "tok1", "Business", []⟩

/-- A second sample Facebook page. -/
def page2 : FacebookPage := ⟨"p2", "Page Two", "tok2", "Business", []⟩

/-- A sample authenticated user. -/
def user1 : UserT := ⟨"user-1"⟩

/-- A sample session. -/
def session1 : SessionT := ⟨"user-1", 1000⟩

/-- A callback environment where every backend call succeeds. -/
def cbEnvOk : CallbackEnv :=
  ⟨some "code123", .ok (some user1), "utok", "ptok", 0, none⟩

/-- A callback environment where the upsert fails. -/
def cbEnvErr : CallbackEnv :=
  ⟨some "code123", .ok (some user1), "utok", "ptok", 0, some "boom"⟩

/-- Local storage holding a hand-off record and one cached page. -/
def storeOnePage : LocalStore := ⟨some "handoff", some (some [page1])⟩

/-- Local storage holding a hand-off record and no cached pages key. -/
def storeNoPages : LocalStore := ⟨some "handoff", none⟩

/-- Local storage holding a hand-off record and two cached pages. -/
def storeTwoPages : LocalStore := ⟨some "handoff", some (some [page1, page2])⟩

/-- The empty timer system. -/
def timerSys0 : TimerSys := ⟨none, [], 0⟩

/-- A token-refresh environment where getting the session throws. -/
def rtEnvFail : RefreshTokenEnv := ⟨.error "getSession threw", .ok none⟩

/-- A hand-off record written at time 0. -/
def staleState : FbAuthState := ⟨"user-1", 1000, 0⟩

/-- A restore environment observed 1000000 ms after time 0, with no
session available. -/
def restoreEnvStale : RestoreEnv := ⟨1000000, .ok none, .ok none⟩

/-- A status-change environment with a configured app id and a session. -/
def fbEnvOk : StatusChangeEnv :=
  ⟨some "APPID", 0, .ok (some session1), .ok (), .ok []⟩

/-- A status response with the not_authorized status. -/
def respNotAuth : FacebookStatusResponse := ⟨.not_authorized, none⟩

/-- A status response with the connected status and an auth response. -/
def respConnected : FacebookStatusResponse :=
  ⟨.connected, some ⟨"fbtok", 3600, "sig", "fbuser"⟩⟩

/- ----------------------------------------------------------------
Helper lemmas.
---------------------------------------------------------------- -/

/-- The empty timer system satisfies the timer invariant. -/
theorem timerInv_timerSys0 : TimerInv timerSys0 := by
  constructor
  · intro h hh
    simp [timerSys0] at hh
  · left
    rfl

/-- A system holding exactly one freshly issued timer satisfies the
invariant. -/
theorem timerInv_single (n : Nat) (d : ℚ) :
    TimerInv ⟨some n, [⟨n, d⟩], n + 1⟩ := by
  constructor
  · intro h hh
    simp only [Option.some.injEq] at hh
    subst hh
    exact Nat.lt_succ_self n
  · right
    exact ⟨⟨n, d⟩, rfl, rfl⟩

/-- Characterisation of `setupSessionRefresh` on invariant states: the
previous timer (if any) is cleared and exactly one fresh timer carrying
the computed delay is armed, the ref pointing to it. -/
theorem setup_eq (s : TimerSys) (E T : ℚ) (hinv : TimerInv s) :
    setupSessionRefresh s E T =
      ⟨some s.next, [⟨s.next, finalDelayMs E T⟩], s.next + 1⟩ := by
  obtain ⟨-, hcase⟩ := hinv
  cases hc : s.current with
  | none =>
    rcases hcase with harmed | ⟨t, ht, harmed⟩
    · simp [setupSessionRefresh, hc, setTimeout, harmed]
    · rw [hc] at ht
      exact absurd ht (by simp)
  | some h =>
    rcases hcase with harmed | ⟨t, ht, harmed⟩
    · simp [setupSessionRefresh, hc, clearTimeout, setTimeout, harmed]
    · rw [hc] at ht
      have h1 : h = t.handle := Option.some.inj ht
      subst h1
      simp [setupSessionRefresh, hc, clearTimeout, setTimeout, harmed]

/-- `setupSessionRefresh` preserves the timer invariant. -/
theorem setup_inv (s : TimerSys) (E T : ℚ) (hinv : TimerInv s) :
    TimerInv (setupSessionRefresh s E T) := by
  rw [setup_eq s E T hinv]
  exact timerInv_single s.next (finalDelayMs E T)

/-- Disarming a handle preserves the timer invariant. -/
theorem filter_inv (s : TimerSys) (h : Nat) (hinv : TimerInv s) :
    TimerInv { s with armed := s.armed.filter (fun t => t.handle != h) } := by
  obtain ⟨hn, hcase⟩ := hinv
  constructor
  · intro h2 hh2
    exact hn h2 hh2
  · rcases hcase with harmed | ⟨t, ht, harmed⟩
    · left
      simp [harmed]
    · by_cases he : t.handle = h
      · left
        simp [harmed, he]
      · right
        exact ⟨t, ht, by simp [harmed, he]⟩

/-- Characterisation of a scheduled-refresh firing that succeeds and sees
a session: exactly one fresh timer with the recomputed delay is armed. -/
theorem fire_success_eq (s : TimerSys) (h : Nat) (E2 T2 : ℚ)
    (hinv : TimerInv s) :
    fireRefreshTimer s h ⟨true, some E2⟩ T2 =
      ⟨some s.next, [⟨s.next, finalDelayMs E2 T2⟩], s.next + 1⟩ := by
  have h0 : fireRefreshTimer s h ⟨true, some E2⟩ T2 =
      setupSessionRefresh
        { s with armed := s.armed.filter (fun t => t.handle != h) } E2 T2 := rfl
  rw [h0, setup_eq _ _ _ (filter_inv s h hinv)]

/-- Any list with a member has positive length. -/
theorem length_pos_of_mem {α : Type} {a : α} {l : List α} (hm : a ∈ l) :
    0 < l.length := by
  cases l
  · cases hm
  · simp

/-- The connected-branch dialog URL carries `response_type=code`. -/
theorem connectedUrl_contains (a : String) :
    ContainsRespTypeCode (fbDialogUrlConnected a) :=
  ⟨fbDialogUrlBase ++ a ++ "&redirect_uri=" ++ encodedRedirectUri,
    "&scope=" ++ fbScope, rfl⟩

/-- The default-branch dialog URL carries `response_type=code`. -/
theorem defaultUrl_contains (a : String) :
    ContainsRespTypeCode (fbDialogUrlDefault a) :=
  ⟨fbDialogUrlBase ++ a ++ "&redirect_uri=" ++ encodedRedirectUri ++
      "&scope=" ++ fbScope, "",
    (String.append_empty _).symm⟩

/- ----------------------------------------------------------------
Claim theorems.
---------------------------------------------------------------- -/

/-- Claim C1: for a session whose expiry E lies after the arming time T,
setupSessionRefresh arms exactly one one-shot timer whose delay is
exactly 1000 * max (0.8 * (E - T)) 5 milliseconds, that is,
max (0.8 * (E - T), 5 s) — never negative — and when a scheduled refresh
fires successfully yielding a new session with expiry E2, a new timer is
armed with delay given by the same formula applied to E2 and the new
current time T2. -/
theorem c1_refresh_delay_formula (s : TimerSys) (E T : ℚ)
    (hinv : TimerInv s) (hET : T < E) :
    (setupSessionRefresh s E T).armed = [⟨s.next, finalDelayMs E T⟩] ∧
    finalDelayMs E T = 1000 * max (0.8 * (E - T)) 5 ∧
    (0 : ℚ) ≤ finalDelayMs E T ∧
    ∀ (s2 : TimerSys) (hdl : Nat) (E2 T2 : ℚ), TimerInv s2 →
      (fireRefreshTimer s2 hdl ⟨true, some E2⟩ T2).armed =
        [⟨s2.next, finalDelayMs E2 T2⟩] := by
  refine ⟨?_, ?_, ?_, ?_⟩
  · rw [setup_eq s E T hinv]
  · unfold finalDelayMs refreshDelayMs
    rw [mul_max_of_nonneg _ _ (by norm_num : (0 : ℚ) ≤ 1000)]
    congr 1 <;> ring
  · exact le_trans (by norm_num) (le_max_right _ _)
  · intro s2 hdl E2 T2 hinv2
    rw [fire_success_eq s2 hdl E2 T2 hinv2]

/-- Witness for C1 at the empty timer system with expiry 3600 s and
current time 0 s. -/
theorem c1_refresh_delay_formula_witness :
    TimerInv timerSys0 ∧ (0 : ℚ) < 3600 ∧
    finalDelayMs 3600 0 = 1000 * max (0.8 * (3600 - 0)) 5 :=
  ⟨timerInv_timerSys0, by norm_num,
    (c1_refresh_delay_formula timerSys0 3600 0 timerInv_timerSys0
      (by norm_num)).2.1⟩

/-- Claim C9: when the expiry is already past or less than 6.25 s away,
the 5 second floor applies — setupSessionRefresh still arms a timer, with
delay exactly 5000 ms, rather than skipping the refresh. -/
theorem c9_floor_applies (s : TimerSys) (E T : ℚ) (hinv : TimerInv s)
    (hnear : E - T < 25 / 4) :
    finalDelayMs E T = 5000 ∧
    (setupSessionRefresh s E T).armed = [⟨s.next, 5000⟩] := by
  have hdelay : finalDelayMs E T = 5000 := by
    unfold finalDelayMs refreshDelayMs
    rw [max_eq_right]
    nlinarith
  refine ⟨hdelay, ?_⟩
  rw [setup_eq s E T hinv, hdelay]

/-- Witness for C9 at the empty timer system with an already expired
session (expiry 0 s, current time 10 s). -/
theorem c9_floor_applies_witness :
    TimerInv timerSys0 ∧ (0 : ℚ) - 10 < 25 / 4 ∧
    finalDelayMs 0 10 = 5000 ∧
    (setupSessionRefresh timerSys0 0 10).armed = [⟨0, 5000⟩] := by
  have h := c9_floor_applies timerSys0 0 10 timerInv_timerSys0 (by norm_num)
  exact ⟨timerInv_timerSys0, by norm_num, h.1, by simpa [timerSys0] using h.2⟩

/-- Claim C6: at most one refresh timer is armed at any instant — every
call to setupSessionRefresh on an invariant state clears the previously
stored handle before arming one fresh timer; after a successful scheduled
refresh that sees a session exactly one new timer exists and the previous
handle is invalidated; and firing an armed timer under any refresh outcome
leaves at most one armed timer. -/
theorem c6_single_timer (s : TimerSys) (E T : ℚ) (hinv : TimerInv s) :
    ((setupSessionRefresh s E T).armed.length = 1 ∧
      TimerInv (setupSessionRefresh s E T) ∧
      ∀ h, s.current = some h →
        ∀ t ∈ (setupSessionRefresh s E T).armed, t.handle ≠ h) ∧
    (∀ (t : TimerT) (E2 T2 : ℚ), s.armed = [t] → s.current = some t.handle →
      (fireRefreshTimer s t.handle ⟨true, some E2⟩ T2).armed.length = 1 ∧
      TimerInv (fireRefreshTimer s t.handle ⟨true, some E2⟩ T2) ∧
      ∀ t2 ∈ (fireRefreshTimer s t.handle ⟨true, some E2⟩ T2).armed,
        t2.handle ≠ t.handle) ∧
    (∀ (t : TimerT), t ∈ s.armed → ∀ (env : RefreshFireEnv) (T2 : ℚ),
      (fireRefreshTimer s t.handle env T2).armed.length ≤ 1) := by
  refine ⟨⟨?_, setup_inv s E T hinv, ?_⟩, ?_, ?_⟩
  · rw [setup_eq s E T hinv]
    rfl
  · intro h hc t ht
    rw [setup_eq s E T hinv] at ht
    simp only [List.mem_singleton] at ht
    subst ht
    have hlt : h < s.next := hinv.1 h hc
    show s.next ≠ h
    omega
  · intro t E2 T2 harmed hcur
    rw [fire_success_eq s t.handle E2 T2 hinv]
    refine ⟨rfl, timerInv_single s.next (finalDelayMs E2 T2), ?_⟩
    intro t2 ht2
    simp only [List.mem_singleton] at ht2
    subst ht2
    have hlt : t.handle < s.next := hinv.1 t.handle hcur
    show s.next ≠ t.handle
    omega
  · intro t htmem env T2
    rcases hinv.2 with harmed | ⟨t0, ht0, harmed⟩
    · rw [harmed] at htmem
      cases htmem
    · rw [harmed] at htmem
      have heq : t = t0 := by simpa using htmem
      subst heq
      have hinv0 : TimerInv { s with
          armed := s.armed.filter (fun x => x.handle != t.handle) } :=
        filter_inv s t.handle hinv
      rcases env with ⟨succ, after⟩
      cases succ
      · simp [fireRefreshTimer, setTimeout, harmed]
      · cases after with
        | none =>
          simp [fireRefreshTimer, harmed]
        | some E2 =>
          have h0 : fireRefreshTimer s t.handle ⟨true, some E2⟩ T2 =
              setupSessionRefresh
                { s with
                  armed := s.armed.filter (fun x => x.handle != t.handle) }
                E2 T2 := rfl
          rw [h0, setup_eq _ _ _ hinv0]
          simp

/-- Witness for C6 at the empty timer system. -/
theorem c6_single_timer_witness :
    TimerInv timerSys0 ∧
    (setupSessionRefresh timerSys0 3600 0).armed.length = 1 :=
  ⟨timerInv_timerSys0,
    (c6_single_timer timerSys0 3600 0 timerInv_timerSys0).1.1⟩

/-- Claim C8: refreshSupabaseToken never propagates an exception (thrown
sub-calls are modelled as error outcomes and are caught, yielding a
boolean); it returns false when no session exists, when retrieving the
session errors, or when the refresh errors or yields no session, and true
exactly when a refreshed session is obtained. -/
theorem c8_refresh_token_total (env : RefreshTokenEnv) :
    (refreshSupabaseToken env = true ↔
      (∃ s, env.getSessionResult = .ok (some s)) ∧
      (∃ s2, env.refreshSessionResult = .ok (some s2))) ∧
    (∀ e, env.getSessionResult = .error e → refreshSupabaseToken env = false) ∧
    (env.getSessionResult = .ok none → refreshSupabaseToken env = false) ∧
    (∀ e, env.refreshSessionResult = .error e →
      refreshSupabaseToken env = false) ∧
    (env.refreshSessionResult = .ok none →
      refreshSupabaseToken env = false) := by
  rcases env with ⟨gs, rs⟩
  rcases gs with eg | _ | sg <;> rcases rs with er | _ | sr <;>
    simp [refreshSupabaseToken]

/-- Witness for C8 in an environment where getting the session throws. -/
theorem c8_refresh_token_total_witness :
    rtEnvFail.getSessionResult = .error "getSession threw" ∧
    refreshSupabaseToken rtEnvFail = false :=
  ⟨rfl, (c8_refresh_token_total rtEnvFail).2.1 "getSession threw" rfl⟩

/-- Claim C3: a stored fb_auth_state record whose timestamp lies more than
15 minutes before the current time is discarded — restoreFacebookAuthState
removes the key and returns false without attempting a refresh — and the
callback page restoreAuth effect, finding no session, schedules the
redirect to the login page. -/
theorem c3_stale_state_discarded (env : RestoreEnv)
    (savedState : Option (Option FbAuthState)) (st : FbAuthState)
    (hs : savedState = some (some st))
    (hstale : env.now - st.timestamp > 15 * 60 * 1000) :
    restoreFacebookAuthState env savedState = ⟨false, none, false⟩ ∧
    restoreAuth none env savedState = true := by
  subst hs
  have h1 : restoreFacebookAuthState env (some (some st)) =
      ⟨false, none, false⟩ := by
    unfold restoreFacebookAuthState
    exact if_pos hstale
  refine ⟨h1, ?_⟩
  simp [restoreAuth, h1]

/-- Witness for C3 on a record 1000000 ms (about 16.7 minutes) old. -/
theorem c3_stale_state_discarded_witness :
    restoreEnvStale.now - staleState.timestamp > 15 * 60 * 1000 ∧
    restoreFacebookAuthState restoreEnvStale (some (some staleState)) =
      ⟨false, none, false⟩ ∧
    restoreAuth none restoreEnvStale (some (some staleState)) = true := by
  refine ⟨by decide, ?_, ?_⟩
  · exact (c3_stale_state_discarded restoreEnvStale (some (some staleState))
      staleState rfl (by decide)).1
  · exact (c3_stale_state_discarded restoreEnvStale (some (some staleState))
      staleState rfl (by decide)).2

/-- Claim C7 (amended): for every status value, when a backend session
exists handleFacebookStatusChange persists the hand-off record with the
session user id, session expiry and current timestamp, and — the app id
being configured — redirects to a Facebook OAuth dialog URL carrying
response_type=code; all three status branches satisfy this same
persist-and-redirect contract, although they additionally differ in the
boolean the promise resolves with, not only in logged diagnostics. -/
theorem c7_branches_persist_and_redirect (resp : FacebookStatusResponse)
    (env : StatusChangeEnv) (s : SessionT) (a : String)
    (hs : env.getSessionResult = .ok (some s)) (ha : env.appId = some a) :
    (handleFacebookStatusChange resp env).fb_auth_state =
      some ⟨s.userId, s.expiresAt, env.now⟩ ∧
    ∃ url, (handleFacebookStatusChange resp env).redirect = some url ∧
      ContainsRespTypeCode url := by
  have hsaved : savedAuthState env = some ⟨s.userId, s.expiresAt, env.now⟩ := by
    simp [savedAuthState, hs]
  rcases resp with ⟨st, ar⟩
  cases st with
  | connected =>
    rcases ar with - | ar
    · exact ⟨by simp [handleFacebookStatusChange, ha, hsaved],
        fbDialogUrlDefault a, by simp [handleFacebookStatusChange, ha],
        defaultUrl_contains a⟩
    · exact ⟨by simp [handleFacebookStatusChange, ha, hsaved],
        fbDialogUrlConnected a, by simp [handleFacebookStatusChange, ha],
        connectedUrl_contains a⟩
  | not_authorized =>
    exact ⟨by simp [handleFacebookStatusChange, ha, hsaved],
      fbDialogUrlDefault a, by simp [handleFacebookStatusChange, ha],
      defaultUrl_contains a⟩
  | unknown =>
    rcases ar with - | ar <;>
      exact ⟨by simp [handleFacebookStatusChange, ha, hsaved],
        fbDialogUrlDefault a, by simp [handleFacebookStatusChange, ha],
        defaultUrl_contains a⟩
  | error =>
    rcases ar with - | ar <;>
      exact ⟨by simp [handleFacebookStatusChange, ha, hsaved],
        fbDialogUrlDefault a, by simp [handleFacebookStatusChange, ha],
        defaultUrl_contains a⟩

/-- Witness for C7 on a not_authorized response with a session and a
configured app id. -/
theorem c7_branches_persist_and_redirect_witness :
    (handleFacebookStatusChange respNotAuth fbEnvOk).fb_auth_state =
      some ⟨"user-1", 1000, 0⟩ ∧
    ∃ url, (handleFacebookStatusChange respNotAuth fbEnvOk).redirect =
      some url ∧ ContainsRespTypeCode url :=
  c7_branches_persist_and_redirect respNotAuth fbEnvOk session1 "APPID" rfl rfl

/-- Claim C10: handleFacebookStatusChange resolves true exactly in the
connected branch (connected status, non-null authResponse, configured app
id); with a configured app id every other branch still performs the
redirect yet resolves false, and the login button then invokes its
failure callback. -/
theorem c10_resolve_only_connected (resp : FacebookStatusResponse)
    (env : StatusChangeEnv) :
    ((handleFacebookStatusChange resp env).result = true ↔
      resp.status = FBLoginStatus.connected ∧
        resp.authResponse.isSome = true ∧ env.appId.isSome = true) ∧
    (∀ a, env.appId = some a →
      ¬(resp.status = FBLoginStatus.connected ∧
        resp.authResponse.isSome = true) →
      (handleFacebookStatusChange resp env).redirect.isSome = true ∧
        (handleFacebookStatusChange resp env).result = false) ∧
    (∀ hs : Bool, buttonStatusDispatch false hs true =
      LoginCallbackInvoked.failureCb) := by
  rcases resp with ⟨st, ar⟩
  refine ⟨?_, ?_, ?_⟩
  · cases st <;> rcases ar with - | ar <;> rcases ha : env.appId with - | a <;>
      simp [handleFacebookStatusChange, ha]
  · intro a ha hnc
    cases st <;> rcases ar with - | ar <;>
      simp [handleFacebookStatusChange, ha] <;> simp at hnc
  · intro hs
    simp [buttonStatusDispatch]

/-- Witness for C10 on a not_authorized response with a configured app
id: the redirect happens and the promise resolves false. -/
theorem c10_resolve_only_connected_witness :
    (handleFacebookStatusChange respNotAuth fbEnvOk).redirect.isSome = true ∧
    (handleFacebookStatusChange respNotAuth fbEnvOk).result = false :=
  (c10_resolve_only_connected respNotAuth fbEnvOk).2.1 "APPID" rfl (by decide)

/-- Claim C2: in a callback run that reaches the page dispatch (code
present, user authenticated), zero cached pages produce exactly one upsert
keyed only by user_id (conflict key user_id, no fb_page_id in the row);
exactly one cached page produces exactly one upsert additionally carrying
that fb_page_id; more than one cached page produces no upsert until a page
is selected, after which processSelectedPage produces exactly one upsert
for the selected page. -/
theorem c2_upsert_dispatch (env : CallbackEnv) (store : LocalStore)
    (u : UserT) (c : String) (hc : env.code = some c)
    (hu : env.getUserResult = .ok (some u)) :
    (loadPages store.fb_pages = [] →
      (handleFacebookCallback env store).upserts =
        [⟨u.id, none, env.userToken, env.now + 2 * 60 * 60 * 1000,
          "user_id"⟩]) ∧
    (∀ p, loadPages store.fb_pages = [p] →
      (handleFacebookCallback env store).upserts =
        [⟨u.id, some p.id, env.pageToken,
          env.now + 60 * 24 * 60 * 60 * 1000, "user_id"⟩]) ∧
    (1 < (loadPages store.fb_pages).length →
      (handleFacebookCallback env store).upserts = [] ∧
      (handleFacebookCallback env store).status =
        CallbackStatus.getting_pages) ∧
    (∀ (pid : String) (avail : List FacebookPage) (st0 : CallbackStatus)
        (p : FacebookPage), avail.find? (fun q => q.id == pid) = some p →
      (processSelectedPage (some pid) avail (some u) env store st0).upserts =
        [⟨u.id, some p.id, env.pageToken,
          env.now + 60 * 24 * 60 * 60 * 1000, "user_id"⟩]) := by
  refine ⟨?_, ?_, ?_, ?_⟩
  · intro hp
    rcases he : env.upsertError with - | e <;>
      simp [handleFacebookCallback, hc, hu, hp, he]
  · intro p hp
    rcases he : env.upsertError with - | e <;>
      simp [handleFacebookCallback, hc, hu, hp, he]
  · intro hlen
    rcases hp : loadPages store.fb_pages with - | ⟨p1, - | ⟨p2, rest⟩⟩
    · rw [hp] at hlen
      simp at hlen
    · rw [hp] at hlen
      simp at hlen
    · constructor <;> simp [handleFacebookCallback, hc, hu, hp]
  · intro pid avail st0 p hfind
    have hmem : p ∈ avail := List.mem_of_find?_eq_some hfind
    have hlen : 0 < avail.length := length_pos_of_mem hmem
    rcases he : env.upsertError with - | e <;>
      simp [processSelectedPage, hfind, hlen, he]

/-- Witness for C2 on the zero-cached-pages path. -/
theorem c2_upsert_dispatch_witness :
    (handleFacebookCallback cbEnvOk storeNoPages).upserts =
      [⟨"user-1", none, "utok", 7200000, "user_id"⟩] := by
  have h := (c2_upsert_dispatch cbEnvOk storeNoPages user1 "code123"
    rfl rfl).1 rfl
  simpa [cbEnvOk, user1] using h

/-- Claim C4: when the backend write fails during the callback, the page
reaches the terminal error state and local storage is untouched, so the
fb_pages and fb_auth_state keys remain exactly as they were. -/
theorem c4_upsert_failure_keeps_keys (env : CallbackEnv) (store : LocalStore)
    (u : UserT) (c e : String) (hc : env.code = some c)
    (hu : env.getUserResult = .ok (some u)) (he : env.upsertError = some e) :
    ((loadPages store.fb_pages).length ≤ 1 →
      (handleFacebookCallback env store).status = CallbackStatus.error ∧
      (handleFacebookCallback env store).store = store) ∧
    (∀ (pid : String) (avail : List FacebookPage) (st0 : CallbackStatus)
        (p : FacebookPage), avail.find? (fun q => q.id == pid) = some p →
      (processSelectedPage (some pid) avail (some u) env store st0).status =
        CallbackStatus.error ∧
      (processSelectedPage (some pid) avail (some u) env store st0).store =
        store) := by
  constructor
  · intro hlen
    rcases hp : loadPages store.fb_pages with - | ⟨p1, - | ⟨p2, rest⟩⟩
    · constructor <;> simp [handleFacebookCallback, hc, hu, hp, he]
    · constructor <;> simp [handleFacebookCallback, hc, hu, hp, he]
    · rw [hp] at hlen
      simp at hlen
  · intro pid avail st0 p hfind
    have hmem : p ∈ avail := List.mem_of_find?_eq_some hfind
    have hlen : 0 < avail.length := length_pos_of_mem hmem
    constructor <;> simp [processSelectedPage, hfind, hlen, he]

/-- Witness for C4 on the one-cached-page path with a failing upsert:
the error state is reached and both hand-off keys are still present. -/
theorem c4_upsert_failure_keeps_keys_witness :
    (handleFacebookCallback cbEnvErr storeOnePage).status =
      CallbackStatus.error ∧
    (handleFacebookCallback cbEnvErr storeOnePage).store.fb_auth_state =
      some "handoff" ∧
    (handleFacebookCallback cbEnvErr storeOnePage).store.fb_pages =
      some (some [page1]) := by
  have h := (c4_upsert_failure_keeps_keys cbEnvErr storeOnePage user1
    "code123" "boom" rfl rfl rfl).1 (by decide)
  refine ⟨h.1, ?_, ?_⟩
  · rw [h.2]
    rfl
  · rw [h.2]
    rfl

/-- Counterexample to claim C5 as stated: a successful save on the
one-cached-page path of the routed callback page leaves the fb_auth_state
hand-off key present in local storage (only fb_pages is removed), so it is
not the case that both hand-off keys are removed on every successful
save. -/
theorem c5_counterexample :
    (handleFacebookCallback cbEnvOk storeOnePage).status =
      CallbackStatus.success ∧
    (handleFacebookCallback cbEnvOk storeOnePage).store.fb_auth_state =
      some "handoff" ∧
    (handleFacebookCallback cbEnvOk storeOnePage).navigate =
      some "/settings" := by
  refine ⟨by decide, by decide, by decide⟩

/-- Claim C5 as amended: on every successful save the routed callback
page removes exactly one hand-off key — fb_auth_state on the
zero-cached-pages path, fb_pages on the one-page and selected-page
paths — leaves the other key untouched, and navigates to the settings
page immediately. -/
theorem c5_amended_success_cleanup (env : CallbackEnv) (store : LocalStore)
    (u : UserT) (c : String) (hc : env.code = some c)
    (hu : env.getUserResult = .ok (some u)) (he : env.upsertError = none) :
    (loadPages store.fb_pages = [] →
      (handleFacebookCallback env store).status = CallbackStatus.success ∧
      (handleFacebookCallback env store).store.fb_auth_state = none ∧
      (handleFacebookCallback env store).store.fb_pages = store.fb_pages ∧
      (handleFacebookCallback env store).navigate = some "/settings") ∧
    (∀ p, loadPages store.fb_pages = [p] →
      (handleFacebookCallback env store).status = CallbackStatus.success ∧
      (handleFacebookCallback env store).store.fb_pages = none ∧
      (handleFacebookCallback env store).store.fb_auth_state =
        store.fb_auth_state ∧
      (handleFacebookCallback env store).navigate = some "/settings") ∧
    (∀ (pid : String) (avail : List FacebookPage) (st0 : CallbackStatus)
        (p : FacebookPage), avail.find? (fun q => q.id == pid) = some p →
      (processSelectedPage (some pid) avail (some u) env store st0).status =
        CallbackStatus.success ∧
      (processSelectedPage (some pid) avail (some u) env store st0).store.fb_pages
        = none ∧
      (processSelectedPage (some pid) avail (some u) env store st0).store.fb_auth_state
        = store.fb_auth_state ∧
      (processSelectedPage (some pid) avail (some u) env store st0).navigate =
        some "/settings") := by
  refine ⟨?_, ?_, ?_⟩
  · intro hp
    refine ⟨?_, ?_, ?_, ?_⟩ <;> simp [handleFacebookCallback, hc, hu, hp, he]
  · intro p hp
    refine ⟨?_, ?_, ?_, ?_⟩ <;> simp [handleFacebookCallback, hc, hu, hp, he]
  · intro pid avail st0 p hfind
    have hmem : p ∈ avail := List.mem_of_find?_eq_some hfind
    have hlen : 0 < avail.length := length_pos_of_mem hmem
    refine ⟨?_, ?_, ?_, ?_⟩ <;> simp [processSelectedPage, hfind, hlen, he]

/-- Witness for the amended C5 on the one-cached-page path. -/
theorem c5_amended_success_cleanup_witness :
    (handleFacebookCallback cbEnvOk storeOnePage).status =
      CallbackStatus.success ∧
    (handleFacebookCallback cbEnvOk storeOnePage).store.fb_pages = none ∧
    (handleFacebookCallback cbEnvOk storeOnePage).store.fb_auth_state =
      some "handoff" ∧
    (handleFacebookCallback cbEnvOk storeOnePage).navigate =
      some "/settings" := by
  have h := (c5_amended_success_cleanup cbEnvOk storeOnePage user1 "code123"
    rfl rfl rfl).2.1 page1 (by decide)
  refine ⟨h.1, h.2.1, ?_, h.2.2.2⟩
  rw [h.2.2.1]
  rfl

/-- Counterexample to claim C7 as stated: in one and the same environment
(session present, app id configured) the connected and not_authorized
branches differ in more than logged diagnostics — the promise resolves
true in the connected branch and false in the not_authorized branch, so
the three status branches do not differ only in logged diagnostics. -/
theorem c7_counterexample :
    (handleFacebookStatusChange respConnected fbEnvOk).result = true ∧
    (handleFacebookStatusChange respNotAuth fbEnvOk).result = false :=
  ⟨rfl, rfl⟩
